import Mathlib

/-!
Verification development for the housetrap/idf-app firmware application.

The definitions below are a shallow embedding of the application sources:
the typed NVS configuration store and its HTTP handlers (nvs_config.cpp,
nvs_config_web_services.cpp), the BLE provisioner retry logic
(provisioner.cpp), the MQTT connectivity client (mqtt.cpp, mqtt.hpp) and
the OTA firmware updater (firmware_updater.cpp, app.cpp).

The NVS persistence medium itself (the ESP-IDF nvs_flash component) and
the OTA partition state machine are not part of the repository sources;
those parts are modelled from the specification and are marked as such in
their doc comments.  Everything else is translated directly from the C++
sources.
-/

/-- Error codes used by the sources (esp_err_t values relevant here:
ESP_OK, ESP_FAIL, ESP_ERR_NVS_NOT_FOUND, ESP_ERR_NVS_TYPE_MISMATCH). -/
inductive EspErr where
  | Ok
  | Fail
  | NotFound
  | TypeMismatch
  deriving DecidableEq, Repr

/-- Result of a fallible operation, mirroring out-parameter plus esp_err_t
returns in the C++ sources. -/
inductive NvsResult (α : Type) where
  | ok (v : α)
  | error (e : EspErr)
  deriving DecidableEq, Repr

/-- The nvs_type_t tag set (nvs.h), as dispatched on by NvsHandle. -/
inductive NvsType where
  | U8 | I8 | U16 | I16 | U32 | I32 | U64 | I64 | Str | Blob | Any
  deriving DecidableEq, Repr

/-- Whether a type tag is one of the eight fixed-width integer tags; these
are exactly the cases of the switch statements in NvsHandle::SetInt and
NvsHandle::GetInt (all other tags fall to the default branch returning
ESP_ERR_NVS_TYPE_MISMATCH). -/
def isIntType : NvsType → Bool
  | NvsType.U8 | NvsType.I8 | NvsType.U16 | NvsType.I16
  | NvsType.U32 | NvsType.I32 | NvsType.U64 | NvsType.I64 => true
  | _ => false

/-- Stored payload of an NVS entry: an integer cell, a string, or a byte
blob. -/
inductive NvsValue where
  | intv (v : Int)
  | strv (s : String)
  | blobv (b : List Nat)
  deriving DecidableEq, Repr

/-- A stored entry: its type tag and payload.  The byte layout on the
medium is determined solely by the tag. -/
structure NvsEntry where
  type : NvsType
  val : NvsValue
  deriving DecidableEq, Repr

/-- Entries are identified by (namespace, key). -/
abbrev NsKey := String × String

/-- Association-list search, first match wins (newest entries are kept at
the front of the lists). -/
def alFind : List (NsKey × NvsEntry) → NsKey → Option NvsEntry
  | [], _ => none
  | (k', e) :: t, k => if k' = k then some e else alFind t k

/-- Remove every binding of one (namespace, key). -/
def alRemoveKey : List (NsKey × NvsEntry) → NsKey → List (NsKey × NvsEntry)
  | [], _ => []
  | (k', e) :: t, k => if k' = k then alRemoveKey t k else (k', e) :: alRemoveKey t k

/-- Remove every binding whose namespace matches. -/
def alRemoveNs : List (NsKey × NvsEntry) → String → List (NsKey × NvsEntry)
  | [], _ => []
  | (k', e) :: t, ns => if k'.1 = ns then alRemoveNs t ns else (k', e) :: alRemoveNs t ns

/-- Keep only the bindings whose namespace matches, preserving order. -/
def alTakeNs : List (NsKey × NvsEntry) → String → List (NsKey × NvsEntry)
  | [], _ => []
  | (k', e) :: t, ns => if k'.1 = ns then (k', e) :: alTakeNs t ns else alTakeNs t ns

/-- Modelled from the spec: the NVS persistence medium (the ESP-IDF
nvs_flash component, not part of this repository).  Set/write operations
are buffered in `pending` until an explicit commit makes them durable;
erase operations act on both lists immediately. -/
structure NvsStore where
  durable : List (NsKey × NvsEntry)
  pending : List (NsKey × NvsEntry)
  deriving DecidableEq, Repr

/-- Modelled from the spec: a buffered write (nvs_set_*), newest first. -/
def nvs_set_entry (st : NvsStore) (k : NsKey) (e : NvsEntry) : NvsStore :=
  { st with pending := (k, e) :: st.pending }

/-- Modelled from the spec: nvs_commit makes the pending mutations of the
namespace durable. -/
def nvs_commit (st : NvsStore) (ns : String) : NvsStore :=
  { durable := alTakeNs st.pending ns ++ st.durable
    pending := alRemoveNs st.pending ns }

/-- Modelled from the spec: nvs_erase_key removes the entry immediately,
without requiring a commit. -/
def nvs_erase_key (st : NvsStore) (ns key : String) : NvsStore :=
  { durable := alRemoveKey st.durable (ns, key)
    pending := alRemoveKey st.pending (ns, key) }

/-- Modelled from the spec: nvs_erase_all removes every entry of the
namespace immediately, without requiring a commit. -/
def nvs_erase_all (st : NvsStore) (ns : String) : NvsStore :=
  { durable := alRemoveNs st.durable ns
    pending := alRemoveNs st.pending ns }

/-- Lookup of an entry: reads see the newest pending write, else the
durable contents. -/
def nvsFind (st : NvsStore) (k : NsKey) : Option NvsEntry :=
  match alFind st.pending k with
  | some e => some e
  | none => alFind st.durable k

/-- Modelled from the spec: a power cycle (process restart) keeps only
what has been made durable; pending, uncommitted writes are lost. -/
def powerCycle (st : NvsStore) : NvsStore :=
  { durable := st.durable, pending := [] }

/-- Typed read from the medium: missing keys give NotFound; reading with
a type tag different from the stored one fails with TypeMismatch, never
silently reinterpreting bytes. -/
def nvsGetTyped (st : NvsStore) (k : NsKey) (ty : NvsType) : NvsResult NvsValue :=
  match nvsFind st k with
  | none => NvsResult.error EspErr.NotFound
  | some e =>
      if e.type = ty then NvsResult.ok e.val else NvsResult.error EspErr.TypeMismatch

/-!
IEEE-754 binary64 rounding of integers.  NvsHandle::SetInt takes its
value as a C double and NvsHandle::GetInt widens the stored integer cell
into a double; both conversions round the integer to the nearest value
representable in the 53-bit significand (ties to even).  The functions
below model that rounding exactly for the uint64 range.
-/

/-- Exponent of the spacing (ulp) between consecutive binary64 values at
magnitude n, for n in the uint64 range: 0 below 2^53, then one more for
each further power of two. -/
def ulpExp (n : Nat) : Nat :=
  if n < 9007199254740992 then 0
  else if n < 18014398509481984 then 1
  else if n < 36028797018963968 then 2
  else if n < 72057594037927936 then 3
  else if n < 144115188075855872 then 4
  else if n < 288230376151711744 then 5
  else if n < 576460752303423488 then 6
  else if n < 1152921504606846976 then 7
  else if n < 2305843009213693952 then 8
  else if n < 4611686018427387904 then 9
  else if n < 9223372036854775808 then 10
  else 11

/-- Round a natural number to the nearest binary64-representable integer
(round to nearest, ties to even), exact for the uint64 range. -/
def roundDouble (n : Nat) : Nat :=
  let u := 2 ^ ulpExp n
  let q := n / u
  let r := n % u
  if r = 0 then n
  else if 2 * r < u then q * u
  else if u < 2 * r then (q + 1) * u
  else if q % 2 = 0 then q * u else (q + 1) * u

/-- Rounding of a signed integer to binary64 (the rounding is symmetric
about zero). -/
def roundDoubleInt (v : Int) : Int :=
  if 0 ≤ v then (roundDouble v.toNat : Int)
  else -(roundDouble (-v).toNat : Int)

/-!
The NvsHandle wrapper (nvs_config.cpp).  A handle is opened on one
namespace; the methods below take the store and the namespace the handle
was opened on.
-/

/-- NvsHandle::SetInt: dispatch on the type tag; the eight integer tags
forward the (double) value to the corresponding nvs_set_* call, every
other tag returns ESP_ERR_NVS_TYPE_MISMATCH.  The `v` argument is the
value of the double parameter (an integer by construction). -/
def NvsHandle.SetInt (st : NvsStore) (ns key : String) (ty : NvsType) (v : Int) :
    EspErr × NvsStore :=
  if isIntType ty = false then (EspErr.TypeMismatch, st)
  else (EspErr.Ok, nvs_set_entry st (ns, key) ⟨ty, NvsValue.intv v⟩)

/-- NvsHandle::GetInt: dispatch on the type tag; each integer case reads
the fixed-width cell and widens it into the double out-parameter (the
widening is the binary64 rounding); other tags return
ESP_ERR_NVS_TYPE_MISMATCH. -/
def NvsHandle.GetInt (st : NvsStore) (ns key : String) (ty : NvsType) : NvsResult Int :=
  if isIntType ty = false then NvsResult.error EspErr.TypeMismatch
  else
    match nvsGetTyped st (ns, key) ty with
    | NvsResult.error e => NvsResult.error e
    | NvsResult.ok (NvsValue.intv v) => NvsResult.ok (roundDoubleInt v)
    | NvsResult.ok _ => NvsResult.error EspErr.TypeMismatch

/-- NvsHandle::SetString: forwards to nvs_set_str. -/
def NvsHandle.SetString (st : NvsStore) (ns key : String) (s : String) :
    EspErr × NvsStore :=
  (EspErr.Ok, nvs_set_entry st (ns, key) ⟨NvsType.Str, NvsValue.strv s⟩)

/-- NvsHandle::GetString: forwards to nvs_get_str. -/
def NvsHandle.GetString (st : NvsStore) (ns key : String) : NvsResult String :=
  match nvsGetTyped st (ns, key) NvsType.Str with
  | NvsResult.error e => NvsResult.error e
  | NvsResult.ok (NvsValue.strv s) => NvsResult.ok s
  | NvsResult.ok _ => NvsResult.error EspErr.TypeMismatch

/-- NvsHandle::SetBlob: forwards to nvs_set_blob. -/
def NvsHandle.SetBlob (st : NvsStore) (ns key : String) (b : List Nat) :
    EspErr × NvsStore :=
  (EspErr.Ok, nvs_set_entry st (ns, key) ⟨NvsType.Blob, NvsValue.blobv b⟩)

/-- NvsHandle::GetBlob: forwards to nvs_get_blob. -/
def NvsHandle.GetBlob (st : NvsStore) (ns key : String) : NvsResult (List Nat) :=
  match nvsGetTyped st (ns, key) NvsType.Blob with
  | NvsResult.error e => NvsResult.error e
  | NvsResult.ok (NvsValue.blobv b) => NvsResult.ok b
  | NvsResult.ok _ => NvsResult.error EspErr.TypeMismatch

/-- NvsHandle::Commit: forwards to nvs_commit for the handle namespace. -/
def NvsHandle.Commit (st : NvsStore) (ns : String) : NvsStore :=
  nvs_commit st ns

/-- NvsHandle::EraseKey: forwards to nvs_erase_key. -/
def NvsHandle.EraseKey (st : NvsStore) (ns key : String) : NvsStore :=
  nvs_erase_key st ns key

/-- NvsHandle::EraseAll: forwards to nvs_erase_all. -/
def NvsHandle.EraseAll (st : NvsStore) (ns : String) : NvsStore :=
  nvs_erase_all st ns

/-- NvsHandle::FindKey: forwards to nvs_find_key, reporting the stored
type tag of the key or NotFound. -/
def NvsHandle.FindKey (st : NvsStore) (ns key : String) : NvsResult NvsType :=
  match nvsFind st (ns, key) with
  | none => NvsResult.error EspErr.NotFound
  | some e => NvsResult.ok e.type

/-!
Round-trip compositions Set, Commit, Get on one key, as exercised by the
type round-trip contract.  For the integer path the caller's value first
passes through the double parameter of SetInt, so it is rounded to a
binary64 value before it reaches the store.
-/

/-- SetInt on a fresh double holding v, then Commit, then GetInt. -/
def intSetCommitGet (st : NvsStore) (ns key : String) (ty : NvsType) (v : Int) :
    NvsResult Int :=
  let r := NvsHandle.SetInt st ns key ty (roundDoubleInt v)
  match r.1 with
  | EspErr.Ok => NvsHandle.GetInt (NvsHandle.Commit r.2 ns) ns key ty
  | e => NvsResult.error e

/-- SetInt then Commit, then FindKey, giving back the stored type tag. -/
def intSetCommitFindType (st : NvsStore) (ns key : String) (ty : NvsType) (v : Int) :
    NvsResult NvsType :=
  let r := NvsHandle.SetInt st ns key ty (roundDoubleInt v)
  match r.1 with
  | EspErr.Ok => NvsHandle.FindKey (NvsHandle.Commit r.2 ns) ns key
  | e => NvsResult.error e

/-- SetString then Commit then GetString. -/
def strSetCommitGet (st : NvsStore) (ns key : String) (s : String) : NvsResult String :=
  let r := NvsHandle.SetString st ns key s
  match r.1 with
  | EspErr.Ok => NvsHandle.GetString (NvsHandle.Commit r.2 ns) ns key
  | e => NvsResult.error e

/-- SetBlob then Commit then GetBlob. -/
def blobSetCommitGet (st : NvsStore) (ns key : String) (b : List Nat) :
    NvsResult (List Nat) :=
  let r := NvsHandle.SetBlob st ns key b
  match r.1 with
  | EspErr.Ok => NvsHandle.GetBlob (NvsHandle.Commit r.2 ns) ns key
  | e => NvsResult.error e

/-!
MQTT connectivity client (mqtt.cpp, mqtt.hpp).  The client state carries
the connected flag, the poisoned-session guard fatal_error_, the ordered
subscription list and the topic base.
-/

/-- The MQTT client state (fields of class MQTT). -/
structure MQTTState where
  connected_ : Bool
  fatal_error_ : Bool
  subscriptions_ : List (String × Int)
  topic_base_ : String
  deriving DecidableEq, Repr

/-- The events of esp_mqtt_event_id_t handled by MQTT::EventHandler. -/
inductive MqttEvent where
  | connected
  | disconnected
  | dataEvt
  | published
  | errorEvt
  deriving DecidableEq, Repr

/-- A call into the underlying transport (the esp-mqtt client). -/
inductive WireCall where
  | publishCall (topic data : String) (len qos retain : Int)
  deriving DecidableEq, Repr

/-- MQTT::AddSubscription: appends (topic, qos) to the registration
list. -/
def MQTT.AddSubscription (m : MQTTState) (topic : String) (qos : Int) : MQTTState :=
  { m with subscriptions_ := m.subscriptions_ ++ [(topic, qos)] }

/-- The subscription replay loop of the MQTT_EVENT_CONNECTED branch: one
esp_mqtt_client_subscribe call per registered subscription, in list
order.  The loop body discards the call result, so the produced call
sequence pairs each subscription with the transport result `subRes`
without ever consulting it. -/
def subscribeReplay (subs : List (String × Int)) (subRes : String → Int → Int) :
    List ((String × Int) × Int) :=
  subs.map (fun s => (s, subRes s.1 s.2))

/-- MQTT::EventHandler: the connected branch sets connected_ and replays
every registered subscription; the disconnected branch clears
connected_; the data, published and error branches only log (and flash
the LED), leaving the state unchanged and issuing no transport calls. -/
def MQTT.EventHandler (subRes : String → Int → Int) (m : MQTTState) (e : MqttEvent) :
    MQTTState × List ((String × Int) × Int) :=
  match e with
  | MqttEvent.connected =>
      ({ m with connected_ := true }, subscribeReplay m.subscriptions_ subRes)
  | MqttEvent.disconnected => ({ m with connected_ := false }, [])
  | _ => (m, [])

/-- MQTT::EventHandlerForwarder (mqtt.hpp): the trampoline refuses to
dispatch when the instance pointer is null or the poisoned-session guard
fatal_error_ is set; otherwise it enters MQTT::EventHandler.  A `none`
result means the handler body was never entered. -/
def MQTT.EventHandlerForwarder (subRes : String → Int → Int) (inst : Option MQTTState)
    (e : MqttEvent) : Option (MQTTState × List ((String × Int) × Int)) :=
  match inst with
  | none => none
  | some m =>
      if m.fatal_error_ = true then none
      else some (MQTT.EventHandler subRes m e)

/-- MQTT::Publish (the in-source definition, firmware_updater.hpp): it
returns esp_mqtt_client_publish of the arguments directly — one
unconditional transport call whose result is passed back unchanged; the
connected_ flag is not consulted. -/
def MQTT.Publish (m : MQTTState) (topic data : String) (len qos retain : Int)
    (transportResult : Int) : Int × List WireCall :=
  (transportResult, [WireCall.publishCall topic data len qos retain])

/-- Environment read by MQTT::Init: the four NVS reads from namespace
mqtt (with their success flags) and the outcomes of the two transport
setup calls. -/
structure MqttInitEnv where
  brokerOk : Bool
  broker : String
  usernameOk : Bool
  username : String
  passwordOk : Bool
  password : String
  topicBaseOk : Bool
  topicBase : String
  clientInitOk : Bool
  registerOk : Bool
  deriving DecidableEq, Repr

/-- Observable outcome of MQTT::Init: the returned esp_err_t, whether
credentials were attached to the session configuration, and the value
assigned to topic_base_ (none when Init returned before the
assignment). -/
structure MqttInitResult where
  result : EspErr
  credentialsAttached : Bool
  topicBaseSet : Option String
  deriving DecidableEq, Repr

/-- MQTT::Init (mqtt.cpp): read broker (failure is fatal), read username
and password (results ignored; the zero-initialised buffers stay empty
on failure), read topic-base (failure is fatal), assign topic_base_,
attach credentials to the configuration only when both username and
password are non-empty, then esp_mqtt_client_init (null is fatal) and
esp_mqtt_client_register_event (error is returned). -/
def MQTT.Init (env : MqttInitEnv) : MqttInitResult :=
  if env.brokerOk = false then ⟨EspErr.Fail, false, none⟩
  else
    let username := if env.usernameOk then env.username else ""
    let password := if env.passwordOk then env.password else ""
    if env.topicBaseOk = false then ⟨EspErr.Fail, false, none⟩
    else
      let creds := decide (0 < username.length) && decide (0 < password.length)
      if env.clientInitOk = false then ⟨EspErr.Fail, creds, some env.topicBase⟩
      else if env.registerOk = false then ⟨EspErr.Fail, creds, some env.topicBase⟩
      else ⟨EspErr.Ok, creds, some env.topicBase⟩

/-- The conditions under which the transport client of MQTT::Init cannot
be initialised: esp_mqtt_client_init returns null, or registering the
event handler on the freshly created client fails. -/
def transportClientInitFails (env : MqttInitEnv) : Prop :=
  env.clientInitOk = false ∨ env.registerOk = false

/-!
WiFi provisioner (provisioner.cpp, provisioner.hpp).
-/

/-- The provisioning phases described for the state machine. -/
inductive ProvPhase where
  | idle
  | awaitingCredentials
  | connecting
  | connectedPhase
  | credentialFailure
  | exhausted
  deriving DecidableEq, Repr

/-- Provisioner state: the retry counter retries_ plus the stored
credential flag and phase kept by the wifi_prov_mgr state machine. -/
structure ProvisionerState where
  retries_ : Nat
  credsStored : Bool
  phase : ProvPhase
  deriving DecidableEq, Repr

/-- kMaxRetriesCount (provisioner.hpp). -/
def kMaxRetriesCount : Nat := 5

/-- The provisioning events handled by Provisioner::EventHandler. -/
inductive ProvEvent where
  | credRecv
  | credFail
  | credSuccess
  deriving DecidableEq, Repr

/-- Provisioner::EventHandler (WIFI_PROV_EVENT branches): a credential
failure increments retries_ and, once the counter reaches
kMaxRetriesCount, calls wifi_prov_mgr_reset_sm_state_on_failure and
zeroes retries_; a credential success zeroes retries_.  The call
wifi_prov_mgr_reset_sm_state_on_failure is modelled from the spec: it
discards the stored credentials and returns the machine to
AwaitingCredentials. -/
def Provisioner.EventHandler (p : ProvisionerState) (e : ProvEvent) : ProvisionerState :=
  match e with
  | ProvEvent.credFail =>
      let r := p.retries_ + 1
      if kMaxRetriesCount ≤ r then
        { retries_ := 0, credsStored := false, phase := ProvPhase.awaitingCredentials }
      else { p with retries_ := r, phase := ProvPhase.credentialFailure }
  | ProvEvent.credSuccess => { p with retries_ := 0 }
  | ProvEvent.credRecv => { p with phase := ProvPhase.connecting }

/-- Fold a sequence of provisioning events through the handler. -/
def Provisioner.runEvents (p : ProvisionerState) (es : List ProvEvent) : ProvisionerState :=
  es.foldl Provisioner.EventHandler p

/-!
Firmware updater (firmware_updater.cpp, firmware_updater.hpp) and the
firmware-upgrade HTTP route (app.cpp).
-/

/-- Updater::Update (firmware_updater.cpp): esp_https_ota drives the
download and flash; any non-OK result is returned to the caller as
ESP_FAIL; on success esp_restart() reboots and the function never
returns (the trailing return ESP_OK is unreachable).  The result pair is
(returned value if control returns, whether the device rebooted). -/
def Updater.Update (otaResult : EspErr) : Option EspErr × Bool :=
  if otaResult ≠ EspErr.Ok then (some EspErr.Fail, false)
  else if otaResult ≠ EspErr.Ok then (some EspErr.Fail, false)
  else (none, true)

/-- The running-image OTA states relevant to rollback
(esp_ota_img_states_t). -/
inductive OtaImgState where
  | newImg
  | pendingVerify
  | validImg
  | invalidImg
  | abortedImg
  | undefinedImg
  deriving DecidableEq, Repr

/-- What esp_ota_get_state_partition reports for the running partition:
whether the read succeeds, and the state it returns. -/
structure OtaPartition where
  stateReadOk : Bool
  state : OtaImgState
  deriving DecidableEq, Repr

/-- Updater::PendingVerification: false when the OTA state of the
running partition cannot be read, else true exactly when that state is
ESP_OTA_IMG_PENDING_VERIFY. -/
def Updater.PendingVerification (p : OtaPartition) : Bool :=
  if p.stateReadOk = false then false
  else decide (p.state = OtaImgState.pendingVerify)

/-- Updater::Commit forwards to esp_ota_mark_app_valid_cancel_rollback.
Modelled from the spec: marking the running image permanently valid
moves its OTA state out of pending-verify. -/
def Updater.Commit (p : OtaPartition) : OtaPartition :=
  { p with state := OtaImgState.validImg }

/-- Modelled from the spec: immediately after a successful flash and
reboot into the new image, the OTA state of the running partition is
pending-verify and readable. -/
def bootAfterSuccessfulFlash : OtaPartition :=
  { stateReadOk := true, state := OtaImgState.pendingVerify }

/-- An HTTP response emitted by a handler: a normal reply or an error
response (httpd_resp_send_err with a message). -/
inductive HttpResp where
  | reply (msg : String)
  | err (msg : String)
  deriving DecidableEq, Repr

/-- The request-side outcomes App::DoFirmwareUpgrade branches on before
it reaches the updater. -/
structure FwRequest where
  recvOk : Bool
  recvAll : Bool
  parseOk : Bool
  urlIsString : Bool
  url : String
  deriving DecidableEq, Repr

/-- App::DoFirmwareUpgrade (app.cpp): receive and parse the JSON body,
extract url, send the reply "Firmware update started" and only then call
Updater::Update; when Update returns an error an error response is also
sent.  Result: (responses sent to the initiating caller, whether the
device rebooted, the handler return value — none when the reboot cuts
execution short). -/
def App.DoFirmwareUpgrade (r : FwRequest) (otaResult : EspErr) :
    List HttpResp × Bool × Option EspErr :=
  if r.recvOk = false then ([HttpResp.err "Failed to receive data"], false, some EspErr.Fail)
  else if r.recvAll = false then
    ([HttpResp.err "Failed to receive all data"], false, some EspErr.Fail)
  else if r.parseOk = false then
    ([HttpResp.err "Failed to parse JSON"], false, some EspErr.Fail)
  else if r.urlIsString = false then ([], false, some EspErr.Fail)
  else
    match Updater.Update otaResult with
    | (none, _) => ([HttpResp.reply "Firmware update started\n"], true, none)
    | (some _, _) =>
        ([HttpResp.reply "Firmware update started\n",
          HttpResp.err "Failed to update firmware"], false, some EspErr.Fail)

/-!
Configuration delete handlers (nvs_config_web_services.cpp).
-/

/-- Store operations a config handler performs on the NVS medium, in
order. -/
inductive StoreOp where
  | openNs
  | eraseKeyOp (key : String)
  | eraseAllOp
  | commitOp
  | setOp (key : String)
  deriving DecidableEq, Repr

/-- The request-side outcomes the delete handlers branch on. -/
structure DelReq where
  queryOk : Bool
  nsOk : Bool
  keyOk : Bool
  openOk : Bool
  deriving DecidableEq, Repr

/-- App::DoConfigDeleteKey: parse query, namespace and key, open the
namespace read-write, erase the key and reply — no commit is issued.
Result: (store after the request, store operations performed, responses
sent). -/
def App.DoConfigDeleteKey (st : NvsStore) (r : DelReq) (ns key : String) :
    NvsStore × List StoreOp × List HttpResp :=
  if r.queryOk = false then (st, [], [HttpResp.err "Failed to get query string"])
  else if r.nsOk = false then (st, [], [HttpResp.err "Failed to get namespace parameter"])
  else if r.keyOk = false then (st, [], [HttpResp.err "Failed to get key parameter"])
  else if r.openOk = false then
    (st, [StoreOp.openNs], [HttpResp.err "Failed to open NVS handle"])
  else
    (NvsHandle.EraseKey st ns key,
     [StoreOp.openNs, StoreOp.eraseKeyOp key],
     [HttpResp.reply "Key Deleted"])

/-- App::DoConfigDeleteNameSpace: parse query and namespace, open the
namespace read-write, erase every key of the namespace and reply — no
commit is issued. -/
def App.DoConfigDeleteNameSpace (st : NvsStore) (queryOk nsOk openOk : Bool)
    (ns : String) : NvsStore × List StoreOp × List HttpResp :=
  if queryOk = false then (st, [], [HttpResp.err "Failed to get query string"])
  else if nsOk = false then (st, [], [HttpResp.err "Failed to get namespace parameter"])
  else if openOk = false then
    (st, [StoreOp.openNs], [HttpResp.err "Failed to open NVS handle"])
  else
    (NvsHandle.EraseAll st ns,
     [StoreOp.openNs, StoreOp.eraseAllOp],
     [HttpResp.reply "Namespace Deleted"])

/-!
NvsHandle::Close (nvs_config.cpp).  The handle object keeps the raw
nvs_handle_t value handle_ (0 when never opened); Close releases via
nvs_close when handle_ is non-zero.  The source never resets handle_
back to 0 after closing.  The releases field counts the nvs_close calls
issued on the underlying handle.
-/

/-- An NvsHandle object: the raw handle value and the number of
nvs_close calls issued so far. -/
structure NvsHandleCpp where
  handle_ : Nat
  releases : Nat
  deriving DecidableEq, Repr

/-- NvsHandle::Close: if handle_ is non-zero, call nvs_close on it; the
source does not zero handle_ afterwards. -/
def NvsHandle.Close (h : NvsHandleCpp) : NvsHandleCpp :=
  if h.handle_ ≠ 0 then { h with releases := h.releases + 1 } else h

/-!
Lemmas about the association-list store.
-/

theorem alFind_alRemoveKey_self (l : List (NsKey × NvsEntry)) (k : NsKey) :
    alFind (alRemoveKey l k) k = none := by
  induction l with
  | nil => rfl
  | cons hd t ih =>
      obtain ⟨k', e⟩ := hd
      by_cases hk : k' = k
      · simp [alRemoveKey, hk, ih]
      · simp [alRemoveKey, alFind, hk, ih]

theorem alFind_alRemoveNs_self (l : List (NsKey × NvsEntry)) (ns key : String) :
    alFind (alRemoveNs l ns) (ns, key) = none := by
  induction l with
  | nil => rfl
  | cons hd t ih =>
      obtain ⟨k', e⟩ := hd
      by_cases hn : k'.1 = ns
      · simp [alRemoveNs, hn, ih]
      · have hne : ¬ k' = (ns, key) := by
          intro hcontra
          apply hn
          rw [hcontra]
        simp [alRemoveNs, alFind, hn, hne, ih]

theorem nvsFind_commit_set (st : NvsStore) (ns key : String) (e : NvsEntry) :
    nvsFind (nvs_commit (nvs_set_entry st (ns, key) e) ns) (ns, key) = some e := by
  simp [nvsFind, nvs_commit, nvs_set_entry, alTakeNs, alRemoveNs, alFind,
        alFind_alRemoveNs_self]

theorem roundDouble_small (n : Nat) (h : n < 9007199254740992) : roundDouble n = n := by
  have he : ulpExp n = 0 := by
    simp [ulpExp, h]
  simp [roundDouble, he, pow_zero, Nat.mod_one, Nat.div_one]

theorem roundDoubleInt_small (v : Int) (h : v.natAbs < 9007199254740992) :
    roundDoubleInt v = v := by
  by_cases hv : 0 ≤ v
  · have hn : v.toNat < 9007199254740992 := by omega
    simp only [roundDoubleInt, if_pos hv, roundDouble_small _ hn]
    omega
  · have hn : (-v).toNat < 9007199254740992 := by omega
    simp only [roundDoubleInt, if_neg hv, roundDouble_small _ hn]
    omega

/-- C1 counterexample: the type round-trip contract fails for 64-bit
values.  Set("mqtt", "big", uint64, 2^53 + 1) followed by Commit and
GetInt reads back 2^53, because the value passes through the widened
double register of SetInt/GetInt whose 53-bit significand cannot
represent 2^53 + 1. -/
theorem c1_counterexample :
    intSetCommitGet ⟨[], []⟩ "mqtt" "big" NvsType.U64 9007199254740993 =
      NvsResult.ok 9007199254740992 ∧
    ¬ intSetCommitGet ⟨[], []⟩ "mqtt" "big" NvsType.U64 9007199254740993 =
      NvsResult.ok 9007199254740993 := by
  constructor
  · decide
  · decide

/-- C1 (amended): Set then Commit then Get returns exactly the stored
type and value for strings, blobs, and every integer value that is
exactly representable in the binary64 double register used by
SetInt/GetInt.  All values of the 8-, 16- and 32-bit widths are so
representable; 64-bit values are preserved exactly when binary64
rounding fixes them (in particular whenever their magnitude is below
2^53), and otherwise read back rounded, as shown by the
counterexample. -/
theorem c1_roundtrip_amended (st : NvsStore) (ns key : String) (ty : NvsType)
    (v : Int) (s : String) (b : List Nat)
    (hty : isIntType ty = true) (hrep : roundDoubleInt v = v) :
    intSetCommitGet st ns key ty v = NvsResult.ok v ∧
    intSetCommitFindType st ns key ty v = NvsResult.ok ty ∧
    strSetCommitGet st ns key s = NvsResult.ok s ∧
    blobSetCommitGet st ns key b = NvsResult.ok b := by
  refine ⟨?_, ?_, ?_, ?_⟩
  · simp [intSetCommitGet, NvsHandle.SetInt, NvsHandle.GetInt, NvsHandle.Commit,
          nvsGetTyped, hty, hrep, nvsFind_commit_set]
  · simp [intSetCommitFindType, NvsHandle.SetInt, NvsHandle.FindKey, NvsHandle.Commit,
          hty, hrep, nvsFind_commit_set]
  · simp [strSetCommitGet, NvsHandle.SetString, NvsHandle.GetString, NvsHandle.Commit,
          nvsGetTyped, nvsFind_commit_set]
  · simp [blobSetCommitGet, NvsHandle.SetBlob, NvsHandle.GetBlob, NvsHandle.Commit,
          nvsGetTyped, nvsFind_commit_set]

/-- Witness for c1_roundtrip_amended at a concrete store, key, a 64-bit
representable value, a string and a blob. -/
theorem c1_roundtrip_witness :
    isIntType NvsType.U64 = true ∧
    roundDoubleInt 1152921504606846976 = 1152921504606846976 ∧
    intSetCommitGet ⟨[], []⟩ "mqtt" "broker" NvsType.U64 1152921504606846976 =
      NvsResult.ok 1152921504606846976 ∧
    intSetCommitFindType ⟨[], []⟩ "mqtt" "broker" NvsType.U64 1152921504606846976 =
      NvsResult.ok NvsType.U64 ∧
    strSetCommitGet ⟨[], []⟩ "mqtt" "broker" "mqtt://10.0.0.5" =
      NvsResult.ok "mqtt://10.0.0.5" ∧
    blobSetCommitGet ⟨[], []⟩ "mqtt" "broker" [1, 2, 3] = NvsResult.ok [1, 2, 3] :=
  ⟨by decide, by decide,
    (c1_roundtrip_amended ⟨[], []⟩ "mqtt" "broker" NvsType.U64 1152921504606846976
      "mqtt://10.0.0.5" [1, 2, 3] (by decide) (by decide)).1,
    (c1_roundtrip_amended ⟨[], []⟩ "mqtt" "broker" NvsType.U64 1152921504606846976
      "mqtt://10.0.0.5" [1, 2, 3] (by decide) (by decide)).2.1,
    (c1_roundtrip_amended ⟨[], []⟩ "mqtt" "broker" NvsType.U64 1152921504606846976
      "mqtt://10.0.0.5" [1, 2, 3] (by decide) (by decide)).2.2.1,
    (c1_roundtrip_amended ⟨[], []⟩ "mqtt" "broker" NvsType.U64 1152921504606846976
      "mqtt://10.0.0.5" [1, 2, 3] (by decide) (by decide)).2.2.2⟩

/-- C2 counterexample: with the connected flag false, Publish still
issues a call into the underlying transport (esp_mqtt_client_publish)
and returns whatever the transport returns, rather than returning a
NotConnectedError without wire traffic. -/
theorem c2_counterexample :
    (MQTTState.mk false false [] "esp/").connected_ = false ∧
    (MQTT.Publish (MQTTState.mk false false [] "esp/") "t" "d" 0 1 0 (-1)).2 =
      [WireCall.publishCall "t" "d" 0 1 0] ∧
    ¬ (MQTT.Publish (MQTTState.mk false false [] "esp/") "t" "d" 0 1 0 (-1)).2 = [] := by
  refine ⟨rfl, rfl, by decide⟩

/-- C2 (amended): Publish forwards the message unconditionally to the
underlying transport client — exactly one publish call with the given
arguments — and returns the transport result unchanged, whatever the
connected flag is; it neither consults connected_ nor synthesises a
NotConnectedError itself (failure signalling is delegated to the
transport call). -/
theorem c2_publish_forwards (m : MQTTState) (topic data : String)
    (len qos retain tr : Int) :
    MQTT.Publish m topic data len qos retain tr =
      (tr, [WireCall.publishCall topic data len qos retain]) := rfl

/-- C3: each credential failure increments retries_ while below the
ceiling, exactly kMaxRetriesCount consecutive failures discard the
stored credentials, return the machine to AwaitingCredentials and zero
retries_, and any credential success zeroes retries_. -/
theorem c3_retry_ceiling (p : ProvisionerState) (h0 : p.retries_ = 0)
    (hc : p.credsStored = true) :
    (∀ k, k < kMaxRetriesCount →
      (Provisioner.runEvents p (List.replicate k ProvEvent.credFail)).retries_ = k ∧
      (Provisioner.runEvents p (List.replicate k ProvEvent.credFail)).credsStored = true) ∧
    (Provisioner.runEvents p
        (List.replicate kMaxRetriesCount ProvEvent.credFail)).retries_ = 0 ∧
    (Provisioner.runEvents p
        (List.replicate kMaxRetriesCount ProvEvent.credFail)).credsStored = false ∧
    (Provisioner.runEvents p
        (List.replicate kMaxRetriesCount ProvEvent.credFail)).phase =
      ProvPhase.awaitingCredentials ∧
    (∀ q : ProvisionerState,
      (Provisioner.EventHandler q ProvEvent.credSuccess).retries_ = 0) := by
  refine ⟨?_, ?_, ?_, ?_, ?_⟩
  · intro k hk
    have hk5 : k < 5 := hk
    interval_cases k <;>
      simp [Provisioner.runEvents, Provisioner.EventHandler, kMaxRetriesCount,
            List.replicate, h0, hc]
  · simp [Provisioner.runEvents, Provisioner.EventHandler, kMaxRetriesCount,
          List.replicate, h0]
  · simp [Provisioner.runEvents, Provisioner.EventHandler, kMaxRetriesCount,
          List.replicate, h0]
  · simp [Provisioner.runEvents, Provisioner.EventHandler, kMaxRetriesCount,
          List.replicate, h0]
  · intro q
    simp [Provisioner.EventHandler]

/-- A fresh provisioner state used as the witness input. -/
def pInit : ProvisionerState :=
  ⟨0, true, ProvPhase.awaitingCredentials⟩

/-- Witness for c3_retry_ceiling at the fresh state. -/
theorem c3_retry_ceiling_witness :
    pInit.retries_ = 0 ∧ pInit.credsStored = true ∧
    (Provisioner.runEvents pInit
        (List.replicate kMaxRetriesCount ProvEvent.credFail)).retries_ = 0 ∧
    (Provisioner.runEvents pInit
        (List.replicate kMaxRetriesCount ProvEvent.credFail)).credsStored = false ∧
    (Provisioner.runEvents pInit
        (List.replicate kMaxRetriesCount ProvEvent.credFail)).phase =
      ProvPhase.awaitingCredentials :=
  ⟨rfl, rfl, (c3_retry_ceiling pInit rfl rfl).2.1, (c3_retry_ceiling pInit rfl rfl).2.2.1,
    (c3_retry_ceiling pInit rfl rfl).2.2.2.1⟩

/-- C4 counterexample: on the success path the initiating HTTP caller
does receive a response — the handler sends "Firmware update started"
before invoking Updater::Update, so the response list is non-empty even
though the device then reboots. -/
theorem c4_counterexample :
    (App.DoFirmwareUpgrade ⟨true, true, true, true, "https://fw.example/app.bin"⟩
        EspErr.Ok).1 = [HttpResp.reply "Firmware update started\n"] ∧
    ¬ (App.DoFirmwareUpgrade ⟨true, true, true, true, "https://fw.example/app.bin"⟩
        EspErr.Ok).1 = [] := by
  refine ⟨rfl, by decide⟩

/-- C4 (amended): Update on success reboots and never returns control to
the caller, and on any download/flash failure returns an error with no
reboot; the firmware-upgrade handler reports that failure synchronously
with an error response — but it also sends the preliminary reply
"Firmware update started" before invoking Update, so the initiating
caller receives that response even on success. -/
theorem c4_update_reboot_amended (r : FwRequest) (otaResult : EspErr)
    (h1 : r.recvOk = true) (h2 : r.recvAll = true) (h3 : r.parseOk = true)
    (h4 : r.urlIsString = true) (hne : otaResult ≠ EspErr.Ok) :
    Updater.Update EspErr.Ok = (none, true) ∧
    Updater.Update otaResult = (some EspErr.Fail, false) ∧
    App.DoFirmwareUpgrade r EspErr.Ok =
      ([HttpResp.reply "Firmware update started\n"], true, none) ∧
    App.DoFirmwareUpgrade r otaResult =
      ([HttpResp.reply "Firmware update started\n",
        HttpResp.err "Failed to update firmware"], false, some EspErr.Fail) := by
  refine ⟨by simp [Updater.Update], by simp [Updater.Update, hne], ?_, ?_⟩
  · simp [App.DoFirmwareUpgrade, h1, h2, h3, h4, Updater.Update]
  · simp [App.DoFirmwareUpgrade, h1, h2, h3, h4, Updater.Update, hne]

/-- Witness for c4_update_reboot_amended at a concrete request and a
failing OTA result. -/
theorem c4_update_reboot_witness :
    EspErr.Fail ≠ EspErr.Ok ∧
    Updater.Update EspErr.Ok = (none, true) ∧
    Updater.Update EspErr.Fail = (some EspErr.Fail, false) ∧
    App.DoFirmwareUpgrade ⟨true, true, true, true, "https://fw.example/app.bin"⟩
        EspErr.Ok = ([HttpResp.reply "Firmware update started\n"], true, none) ∧
    App.DoFirmwareUpgrade ⟨true, true, true, true, "https://fw.example/app.bin"⟩
        EspErr.Fail =
      ([HttpResp.reply "Firmware update started\n",
        HttpResp.err "Failed to update firmware"], false, some EspErr.Fail) :=
  ⟨by decide,
    (c4_update_reboot_amended ⟨true, true, true, true, "https://fw.example/app.bin"⟩
      EspErr.Fail rfl rfl rfl rfl (by decide)).1,
    (c4_update_reboot_amended ⟨true, true, true, true, "https://fw.example/app.bin"⟩
      EspErr.Fail rfl rfl rfl rfl (by decide)).2.1,
    (c4_update_reboot_amended ⟨true, true, true, true, "https://fw.example/app.bin"⟩
      EspErr.Fail rfl rfl rfl rfl (by decide)).2.2.1,
    (c4_update_reboot_amended ⟨true, true, true, true, "https://fw.example/app.bin"⟩
      EspErr.Fail rfl rfl rfl rfl (by decide)).2.2.2⟩

/-- C5: the delete handlers erase immediately — after DoConfigDeleteKey
the key is gone and after DoConfigDeleteNameSpace every key of the
namespace is gone, with no commit operation issued by either handler —
while a Set needs an explicit Commit to survive a power cycle (the
erase/set commit asymmetry). -/
theorem c5_erase_immediate (st : NvsStore) (r : DelReq) (ns key key2 key3 : String)
    (s : String)
    (hq : r.queryOk = true) (hn : r.nsOk = true) (hk : r.keyOk = true)
    (ho : r.openOk = true)
    (hd : alFind st.durable (ns, key3) = none) :
    (NvsHandle.FindKey (App.DoConfigDeleteKey st r ns key).1 ns key =
        NvsResult.error EspErr.NotFound ∧
      ¬ StoreOp.commitOp ∈ (App.DoConfigDeleteKey st r ns key).2.1) ∧
    (NvsHandle.FindKey (App.DoConfigDeleteNameSpace st r.queryOk r.nsOk r.openOk ns).1
        ns key2 = NvsResult.error EspErr.NotFound ∧
      ¬ StoreOp.commitOp ∈
        (App.DoConfigDeleteNameSpace st r.queryOk r.nsOk r.openOk ns).2.1) ∧
    NvsHandle.FindKey (powerCycle (NvsHandle.SetString st ns key3 s).2) ns key3 =
      NvsResult.error EspErr.NotFound ∧
    NvsHandle.FindKey
        (powerCycle (NvsHandle.Commit (NvsHandle.SetString st ns key3 s).2 ns)) ns key3 =
      NvsResult.ok NvsType.Str := by
  refine ⟨⟨?_, ?_⟩, ⟨?_, ?_⟩, ?_, ?_⟩
  · simp [App.DoConfigDeleteKey, hq, hn, hk, ho, NvsHandle.EraseKey, nvs_erase_key,
          NvsHandle.FindKey, nvsFind, alFind_alRemoveKey_self]
  · simp [App.DoConfigDeleteKey, hq, hn, hk, ho]
  · simp [App.DoConfigDeleteNameSpace, hq, hn, ho, NvsHandle.EraseAll, nvs_erase_all,
          NvsHandle.FindKey, nvsFind, alFind_alRemoveNs_self]
  · simp [App.DoConfigDeleteNameSpace, hq, hn, ho]
  · simp [NvsHandle.SetString, nvs_set_entry, powerCycle, NvsHandle.FindKey, nvsFind,
          alFind, hd]
  · simp [NvsHandle.SetString, nvs_set_entry, NvsHandle.Commit, nvs_commit, powerCycle,
          NvsHandle.FindKey, nvsFind, alFind, alTakeNs]

/-- A store whose durable contents hold the broker key of the mqtt
namespace, used as the witness input. -/
def st0 : NvsStore :=
  ⟨[(("mqtt", "broker"), ⟨NvsType.Str, NvsValue.strv "mqtt://10.0.0.5"⟩)], []⟩

/-- Witness for c5_erase_immediate on st0: delete-key on the stored
broker key, delete-namespace observed at topic-base, and the set/commit
asymmetry at a fresh hostname key. -/
theorem c5_erase_immediate_witness :
    alFind st0.durable ("mqtt", "hostname") = none ∧
    (NvsHandle.FindKey
        (App.DoConfigDeleteKey st0 ⟨true, true, true, true⟩ "mqtt" "broker").1
        "mqtt" "broker" = NvsResult.error EspErr.NotFound ∧
      ¬ StoreOp.commitOp ∈
        (App.DoConfigDeleteKey st0 ⟨true, true, true, true⟩ "mqtt" "broker").2.1) ∧
    (NvsHandle.FindKey (App.DoConfigDeleteNameSpace st0 true true true "mqtt").1
        "mqtt" "topic-base" = NvsResult.error EspErr.NotFound ∧
      ¬ StoreOp.commitOp ∈
        (App.DoConfigDeleteNameSpace st0 true true true "mqtt").2.1) ∧
    NvsHandle.FindKey (powerCycle (NvsHandle.SetString st0 "mqtt" "hostname" "es32").2)
      "mqtt" "hostname" = NvsResult.error EspErr.NotFound ∧
    NvsHandle.FindKey
        (powerCycle
          (NvsHandle.Commit (NvsHandle.SetString st0 "mqtt" "hostname" "es32").2 "mqtt"))
        "mqtt" "hostname" = NvsResult.ok NvsType.Str :=
  ⟨by decide,
    c5_erase_immediate st0 ⟨true, true, true, true⟩ "mqtt" "broker" "topic-base"
      "hostname" "es32" rfl rfl rfl rfl (by decide)⟩

/-- C6: PendingVerification is true at boot immediately after a
successful flash and reboot into the new image (the running partition
reports pending-verify), and false on any partition state reached after
Commit has marked the image valid. -/
theorem c6_pending_verification :
    Updater.PendingVerification bootAfterSuccessfulFlash = true ∧
    ∀ p : OtaPartition, Updater.PendingVerification (Updater.Commit p) = false := by
  constructor
  · rfl
  · intro p
    simp [Updater.PendingVerification, Updater.Commit]

/-- The replay call sequence projects back to the subscription list:
the transport results never influence which subscriptions are
attempted. -/
theorem subscribeReplay_fst (l : List (String × Int)) (subRes : String → Int → Int) :
    (subscribeReplay l subRes).map Prod.fst = l := by
  induction l with
  | nil => rfl
  | cons x t ih => simp [subscribeReplay] at ih ⊢; exact ih

/-- C7: a connected event replays exactly the registered subscriptions,
in registration order — for the two subscriptions registered last, a
before b — and the replayed sequence does not depend on the result of
any individual subscribe call, so one failing subscribe never prevents
the remaining ones; the event also sets the connected flag. -/
theorem c7_subscription_replay (m : MQTTState) (a b : String) (qa qb : Int)
    (subRes subRes2 : String → Int → Int) :
    ((MQTT.EventHandler subRes
        (MQTT.AddSubscription (MQTT.AddSubscription m a qa) b qb)
        MqttEvent.connected).2.map Prod.fst =
      m.subscriptions_ ++ [(a, qa), (b, qb)]) ∧
    (∀ m' : MQTTState,
      ((MQTT.EventHandler subRes2 m' MqttEvent.connected).2.map Prod.fst =
        m'.subscriptions_) ∧
      (MQTT.EventHandler subRes2 m' MqttEvent.connected).1.connected_ = true) := by
  constructor
  · simp [MQTT.EventHandler, MQTT.AddSubscription, subscribeReplay_fst]
  · intro m'
    exact ⟨by simp [MQTT.EventHandler, subscribeReplay_fst],
      by simp [MQTT.EventHandler]⟩

/-- C8: the claim of idempotent Close fails on the code — Close never
resets handle_ to 0, so a second Close on an open handle passes the
non-zero guard again and issues a second nvs_close release, leaving a
state different from the state after the first Close. -/
theorem c8_double_close :
    (NvsHandle.Close (NvsHandle.Close ⟨7, 0⟩)).releases = 2 ∧
    ¬ NvsHandle.Close (NvsHandle.Close ⟨7, 0⟩) = NvsHandle.Close ⟨7, 0⟩ := by
  decide

/-- C9: once the poisoned-session guard fatal_error_ is set, the event
trampoline dispatches nothing — for every arriving event the handler
body is never entered. -/
theorem c9_poisoned_no_dispatch (subRes : String → Int → Int) (m : MQTTState)
    (e : MqttEvent) (h : m.fatal_error_ = true) :
    MQTT.EventHandlerForwarder subRes (some m) e = none := by
  simp [MQTT.EventHandlerForwarder, h]

/-- Witness for c9_poisoned_no_dispatch at a poisoned concrete state. -/
theorem c9_poisoned_witness :
    (MQTTState.mk true true [("esp/test/#", 1)] "esp/").fatal_error_ = true ∧
    MQTT.EventHandlerForwarder (fun _ _ => 1)
      (some (MQTTState.mk true true [("esp/test/#", 1)] "esp/")) MqttEvent.connected =
      none :=
  ⟨rfl,
    c9_poisoned_no_dispatch (fun _ _ => 1)
      (MQTTState.mk true true [("esp/test/#", 1)] "esp/") MqttEvent.connected rfl⟩

/-- C10: MQTT::Init returns an error exactly when the broker key or the
topic-base key of the mqtt namespace cannot be read, or the transport
client cannot be initialised (esp_mqtt_client_init returns null or
registering its event handler fails); the username and password reads
are optional — their failure never changes the result — and credentials
are attached to the session configuration exactly when both the
effective username and password strings are non-empty. -/
theorem c10_init_conditions (env : MqttInitEnv) :
    ((MQTT.Init env).result ≠ EspErr.Ok ↔
      (env.brokerOk = false ∨ env.topicBaseOk = false ∨ transportClientInitFails env)) ∧
    ((env.brokerOk = true ∧ env.topicBaseOk = true) →
      ((MQTT.Init env).credentialsAttached = true ↔
        (0 < (if env.usernameOk then env.username else "").length ∧
         0 < (if env.passwordOk then env.password else "").length))) ∧
    (∀ uOk pOk : Bool,
      (MQTT.Init { env with usernameOk := uOk, passwordOk := pOk }).result =
        (MQTT.Init env).result) := by
  obtain ⟨bo, br, uo, un, po, pw, tbo, tb, ci, ro⟩ := env
  refine ⟨?_, ?_, ?_⟩
  · cases bo <;> cases tbo <;> cases ci <;> cases ro <;>
      simp [MQTT.Init, transportClientInitFails]
  · rintro ⟨hb, ht⟩
    subst hb
    subst ht
    cases ci <;> cases ro <;>
      simp [MQTT.Init]
  · intro uOk pOk
    cases bo <;> cases tbo <;> cases ci <;> cases ro <;>
      simp [MQTT.Init]

/-- A concrete Init environment with every read and setup call
succeeding and non-empty credentials. -/
def envC : MqttInitEnv :=
  ⟨true, "mqtt://192.168.86.30", true, "tester", true, "secret", true, "fh/es2/",
    true, true⟩

/-- Witness for c10_init_conditions at envC. -/
theorem c10_init_conditions_witness :
    (envC.brokerOk = true ∧ envC.topicBaseOk = true) ∧
    ((MQTT.Init envC).result ≠ EspErr.Ok ↔
      (envC.brokerOk = false ∨ envC.topicBaseOk = false ∨
        transportClientInitFails envC)) ∧
    ((MQTT.Init envC).credentialsAttached = true ↔
      (0 < (if envC.usernameOk then envC.username else "").length ∧
       0 < (if envC.passwordOk then envC.password else "").length)) :=
  ⟨⟨rfl, rfl⟩, (c10_init_conditions envC).1, (c10_init_conditions envC).2.1 ⟨rfl, rfl⟩⟩
